import Mathlib

/-!
Shallow embedding of `pypowerup.py`: a single class `PowerupConnection`
wrapping a BLE client (bleak) with scan/connect/disconnect and five
read/write/notify operations.  Each method is modelled as a pure function
from the object state (and the transport responses it consumes) to the
returned value, the updated object state, and the list of transport calls
the method issued, in order.  Python exceptions become `Except` errors.
-/

namespace Pypowerup

/-- Errors raised by the Python methods: `Exception("Not connected to the
device")`, `ValueError(msg)` for range violations, and the `IndexError`
produced by `data[0]` on an empty byte sequence. -/
inductive PyError where
  | notConnected
  | invalidArgument (msg : String)
  | indexError
deriving DecidableEq

/-- A BLE device as seen during a scan: `d.name` may be `None`
(modelled as `none`), plus an address. -/
structure BLEDevice where
  name : Option String
  address : String
deriving DecidableEq

/-- A GATT characteristic: its UUID and its property strings
(e.g. "read", "write", "notify"). -/
structure BLECharacteristic where
  uuid : String
  properties : List String
deriving DecidableEq

/-- A GATT service: its UUID and its characteristics. -/
structure BLEService where
  uuid : String
  characteristics : List BLECharacteristic
deriving DecidableEq

/-- One call issued to the bleak transport layer. -/
inductive TransportCall where
  | find_device
  | bleak_connect (address : String)
  | bleak_disconnect
  | write_gatt_char (uuid : String) (payload : List Nat)
  | read_gatt_char (uuid : String)
  | start_notify (uuid : String)
deriving DecidableEq

/-- The state of a `PowerupConnection` object: the four fields set in
`__init__`.  `client` holds the address the `BleakClient` was built from
(`none` models Python `None`); `battery_callback` is an opaque reference
to the stored callback (`None` in `__init__`, never reassigned). -/
structure PowerupConnection where
  connected : Bool
  client : Option String
  device : Option BLEDevice
  battery_callback : Option Nat
deriving DecidableEq

def POWERUP_SERVICE_UUID : String := "86c3810e-f171-40d9-a117-26b300768cd6"

def BATTERY_SERVICE_UUID : String := "0000180f-0000-1000-8000-00805f9b34fb"

def MOTOR_CONTROL_UUID : String := "86c3810e-0010-40d9-a117-26b300768cd6"

def RUDDER_CONTROL_UUID : String := "86c3810e-0021-40d9-a117-26b300768cd6"

def BATTERY_LEVEL_UUID : String := "00002a19-0000-1000-8000-00805f9b34fb"

def BATTERY_CHARGING_UUID : String := "86c3810e-0040-40d9-a117-26b300768cd6"

/-- `__init__`: connected = False, client = None, device = None,
_battery_callback = None. -/
def PowerupConnection.init : PowerupConnection :=
  { connected := false, client := none, device := none, battery_callback := none }

/-- Python `s.lower()`: lower-case every character.  This is what
`String.toLower` does (`s.map Char.toLower`), written structurally on the
character list so that concrete instances evaluate by kernel reduction. -/
def str_lower (s : String) : String :=
  String.mk (s.data.map Char.toLower)

/-- The scan filter passed to `BleakScanner.find_device_by_filter`:
`lambda d, ad: d.name and d.name.lower() == target_name.lower()`.
Python truthiness: a `None` name and an empty-string name are both falsy,
so the comparison is only reached for a nonempty name. -/
def find_device_by_filter (devices : List BLEDevice) (target_name : String) :
    Option BLEDevice :=
  devices.find? fun d =>
    match d.name with
    | none => false
    | some n => (n != "") && (str_lower n == str_lower target_name)

/-- Outcome of `connect`: the tuple `(False, "CouldNotFind")`, the return
value `True`, or an exception propagating from `client.connect()`. -/
inductive ConnectOutcome where
  | couldNotFind
  | ok
  | bleakError
deriving DecidableEq

/-- `connect(target_name, timeout)`.  `devices` is the list of devices the
scan yields within the timeout, in discovery order; `open_ok` is whether
the transport-level `client.connect()` succeeds.  `self.device` is
assigned the scan result in either case; `self.client` and
`self.connected` are only assigned on the match path, `connected = True`
only after `client.connect()` returns. -/
def connect (self : PowerupConnection) (devices : List BLEDevice)
    (target_name : String) (open_ok : Bool) :
    ConnectOutcome × PowerupConnection × List TransportCall :=
  match find_device_by_filter devices target_name with
  | none =>
      (.couldNotFind, { self with device := none }, [.find_device])
  | some d =>
      if open_ok then
        (.ok,
         { self with device := some d, client := some d.address, connected := true },
         [.find_device, .bleak_connect d.address])
      else
        (.bleakError,
         { self with device := some d, client := some d.address },
         [.find_device, .bleak_connect d.address])

/-- `disconnect()`: `if self.client and self.connected:` then transport
disconnect and `connected = False`; otherwise nothing happens. -/
def disconnect (self : PowerupConnection) :
    PowerupConnection × List TransportCall :=
  if self.client.isSome && self.connected then
    ({ self with connected := false }, [.bleak_disconnect])
  else
    (self, [])

/-- `set_motor_speed(speed)`: not-connected guard, range guard
`0 <= speed <= 254`, then one write of `bytes([speed])` to the motor
control characteristic. -/
def set_motor_speed (self : PowerupConnection) (speed : Int) :
    Except PyError Unit × PowerupConnection × List TransportCall :=
  if self.connected = false then
    (.error .notConnected, self, [])
  else if ¬ (0 ≤ speed ∧ speed ≤ 254) then
    (.error (.invalidArgument "Speed must be between 0 and 254"), self, [])
  else
    (.ok (), self, [.write_gatt_char MOTOR_CONTROL_UUID [speed.toNat]])

/-- Python `angle & 0xFF` on an arbitrary int: bitwise AND with 255 on the
two's-complement representation, which equals the mathematical
`angle mod 256` taken into `[0, 256)` (Lean `Int.emod` is nonnegative for
a positive modulus). -/
def bitand_ff (angle : Int) : Nat :=
  (angle % 256).toNat

/-- `set_rudder_angle(angle)`: not-connected guard, range guard
`-128 <= angle <= 127`, then one write of `bytes([angle & 0xFF])` to the
rudder control characteristic. -/
def set_rudder_angle (self : PowerupConnection) (angle : Int) :
    Except PyError Unit × PowerupConnection × List TransportCall :=
  if self.connected = false then
    (.error .notConnected, self, [])
  else if ¬ (-128 ≤ angle ∧ angle ≤ 127) then
    (.error (.invalidArgument "Angle must be between -128 and 127"), self, [])
  else
    (.ok (), self, [.write_gatt_char RUDDER_CONTROL_UUID [bitand_ff angle]])

/-- `get_battery_level()`: not-connected guard, one read of the battery
level characteristic, returns `int(data[0])`.  `data` is the byte sequence
the transport read returns; on an empty sequence `data[0]` raises
`IndexError` (after the read was issued). -/
def get_battery_level (self : PowerupConnection) (data : List Nat) :
    Except PyError Nat × PowerupConnection × List TransportCall :=
  if self.connected = false then
    (.error .notConnected, self, [])
  else
    match data with
    | [] => (.error .indexError, self, [.read_gatt_char BATTERY_LEVEL_UUID])
    | b :: _ => (.ok b, self, [.read_gatt_char BATTERY_LEVEL_UUID])

/-- `get_charging_status()`: not-connected guard, one read of the battery
charging characteristic, returns `bool(data[0])`, i.e. whether the first
byte is nonzero. -/
def get_charging_status (self : PowerupConnection) (data : List Nat) :
    Except PyError Bool × PowerupConnection × List TransportCall :=
  if self.connected = false then
    (.error .notConnected, self, [])
  else
    match data with
    | [] => (.error .indexError, self, [.read_gatt_char BATTERY_CHARGING_UUID])
    | b :: _ => (.ok (b != 0), self, [.read_gatt_char BATTERY_CHARGING_UUID])

/-- The inner closure of `enable_battery_notifications`:
`notification_handler(sender, data)` computes `int(data[0])` and passes it
to the callback.  The result is the argument the callback receives, or the
`IndexError` raised before the callback is reached. -/
def notification_handler (data : List Nat) : Except PyError Nat :=
  match data with
  | [] => .error .indexError
  | b :: _ => .ok b

/-- The callback invocations one delivered payload produces: one call with
the first byte, or none when the handler raises before the callback. -/
def handler_calls (data : List Nat) : List Nat :=
  match notification_handler data with
  | .ok b => [b]
  | .error _ => []

/-- The full sequence of callback invocations produced by a sequence of
delivered notification payloads, in delivery order. -/
def deliver_all (payloads : List (List Nat)) : List Nat :=
  payloads.flatMap handler_calls

/-- `enable_battery_notifications(callback)`: not-connected guard, then a
single `start_notify` registration on the battery level characteristic.
Registration by itself invokes no handler; deliveries are modelled by
`deliver_all`. -/
def enable_battery_notifications (self : PowerupConnection) :
    Except PyError Unit × PowerupConnection × List TransportCall :=
  if self.connected = false then
    (.error .notConnected, self, [])
  else
    (.ok (), self, [.start_notify BATTERY_LEVEL_UUID])

/-- The reads `test_all_characteristics` issues: for every service, for
every characteristic whose properties contain "read", one read attempt,
in enumeration order. -/
def read_attempts (services : List BLEService) : List TransportCall :=
  services.flatMap fun s =>
    s.characteristics.flatMap fun c =>
      if c.properties.contains "read" then [.read_gatt_char c.uuid] else []

/-- The per-characteristic report `test_all_characteristics` prints: for
every readable characteristic, its UUID paired with the read outcome
(`read_result` is what the transport read returns or the exception text
the `except` clause catches). -/
def read_report (services : List BLEService)
    (read_result : String → Except String (List Nat)) :
    List (String × Except String (List Nat)) :=
  services.flatMap fun s =>
    s.characteristics.flatMap fun c =>
      if c.properties.contains "read" then [(c.uuid, read_result c.uuid)] else []

/-- `test_all_characteristics()`: not-connected guard, then iterates over
all services and characteristics; each read attempt sits inside a
`try/except`, so a failing read is recorded and the loops continue with
the remaining characteristics and services. -/
def test_all_characteristics (self : PowerupConnection)
    (services : List BLEService)
    (read_result : String → Except String (List Nat)) :
    Except PyError (List (String × Except String (List Nat))) ×
      PowerupConnection × List TransportCall :=
  if self.connected = false then
    (.error .notConnected, self, [])
  else
    (.ok (read_report services read_result), self, read_attempts services)

/-- The predicate the spec sentence describes for `connect` matching:
advertised name equal to `target_name` case-insensitively, with no
nonemptiness requirement.  Used to compare the spec wording with the
source filter. -/
def spec_match (target_name : String) (d : BLEDevice) : Bool :=
  match d.name with
  | none => false
  | some n => str_lower n == str_lower target_name

/-- The amended matching predicate: advertised name nonempty and equal to
`target_name` case-insensitively (the Python truthiness guard `d.name and`
skips devices advertising an empty name). -/
def amended_match (target_name : String) (d : BLEDevice) : Bool :=
  match d.name with
  | none => false
  | some n => (n != "") && (str_lower n == str_lower target_name)

/-- Invariant of reachable states: whenever `connected` holds, a client
object has been stored (`connect` assigns `self.client` before setting
`connected = True`, and `client` is never reset to `None`). -/
def clientInv (self : PowerupConnection) : Prop :=
  self.connected = true → self.client.isSome = true

/-- A sample connected state, used to instantiate theorems with a
`connected` hypothesis. -/
def conn_state : PowerupConnection :=
  { connected := true,
    client := some "AA:BB:CC:DD:EE:FF",
    device := some { name := some "TailorToys PowerUp", address := "AA:BB:CC:DD:EE:FF" },
    battery_callback := none }

/-- A read-result function for witnesses: every read succeeds with no
bytes. -/
def no_reads : String → Except String (List Nat) := fun _ => Except.ok []

/-- Claim C1: while connected, `set_motor_speed` with a speed in [0, 254]
issues exactly one write, of the single byte equal to the speed, to the
motor control characteristic; with a speed outside [0, 254] it issues no
write and fails with the `InvalidArgument` range error. -/
theorem set_motor_speed_correct (self : PowerupConnection) (s1 s2 : Int)
    (hc : self.connected = true)
    (h1 : 0 ≤ s1 ∧ s1 ≤ 254) (h2 : ¬ (0 ≤ s2 ∧ s2 ≤ 254)) :
    set_motor_speed self s1 =
      (.ok (), self, [.write_gatt_char MOTOR_CONTROL_UUID [s1.toNat]]) ∧
    set_motor_speed self s2 =
      (.error (.invalidArgument "Speed must be between 0 and 254"), self, []) := by
  constructor <;> simp [set_motor_speed, hc, h1, h2]

/-- Witness for C1: at a connected state, speed 7 (in range) is written as
the byte 7, and speed 300 (out of range) is rejected with no write. -/
theorem set_motor_speed_correct_witness :
    set_motor_speed conn_state 7 =
      (.ok (), conn_state, [.write_gatt_char MOTOR_CONTROL_UUID [7]]) ∧
    set_motor_speed conn_state 300 =
      (.error (.invalidArgument "Speed must be between 0 and 254"), conn_state, []) :=
  set_motor_speed_correct conn_state 7 300 rfl (by decide) (by decide)

/-- Claim C2: while connected, `set_rudder_angle` with an angle in
[-128, 127] issues exactly one write of the byte `(angle + 256) mod 256`
(the two's-complement signed byte) to the rudder control characteristic;
with an angle outside [-128, 127] it issues no write and fails with the
`InvalidArgument` range error. -/
theorem set_rudder_angle_correct (self : PowerupConnection) (a1 a2 : Int)
    (hc : self.connected = true)
    (h1 : -128 ≤ a1 ∧ a1 ≤ 127) (h2 : ¬ (-128 ≤ a2 ∧ a2 ≤ 127)) :
    set_rudder_angle self a1 =
      (.ok (), self,
       [.write_gatt_char RUDDER_CONTROL_UUID [((a1 + 256) % 256).toNat]]) ∧
    set_rudder_angle self a2 =
      (.error (.invalidArgument "Angle must be between -128 and 127"), self, []) := by
  have hmod : ((a1 + 256) % 256).toNat = bitand_ff a1 := by
    unfold bitand_ff
    congr 1
    omega
  refine ⟨?_, ?_⟩
  · rw [hmod]
    simp [set_rudder_angle, hc, h1]
  · simp [set_rudder_angle, hc, h2]

/-- Witness for C2: at a connected state, angle -1 is written as the byte
0xFF = 255, and angle 200 (out of range) is rejected with no write. -/
theorem set_rudder_angle_correct_witness :
    set_rudder_angle conn_state (-1) =
      (.ok (), conn_state, [.write_gatt_char RUDDER_CONTROL_UUID [255]]) ∧
    set_rudder_angle conn_state 200 =
      (.error (.invalidArgument "Angle must be between -128 and 127"), conn_state, []) := by
  have h := set_rudder_angle_correct conn_state (-1) 200 rfl (by decide) (by decide)
  simpa using h

/-- Claim C3: every control/telemetry operation invoked while the session
is disconnected fails with the not-connected error and issues zero
transport calls. -/
theorem not_connected_rejects_all (self : PowerupConnection)
    (speed angle : Int) (data1 data2 : List Nat) (services : List BLEService)
    (read_result : String → Except String (List Nat))
    (hc : self.connected = false) :
    set_motor_speed self speed = (.error .notConnected, self, []) ∧
    set_rudder_angle self angle = (.error .notConnected, self, []) ∧
    get_battery_level self data1 = (.error .notConnected, self, []) ∧
    get_charging_status self data2 = (.error .notConnected, self, []) ∧
    enable_battery_notifications self = (.error .notConnected, self, []) ∧
    test_all_characteristics self services read_result =
      (.error .notConnected, self, []) := by
  refine ⟨?_, ?_, ?_, ?_, ?_, ?_⟩ <;>
    simp [set_motor_speed, set_rudder_angle, get_battery_level,
      get_charging_status, enable_battery_notifications,
      test_all_characteristics, hc]

/-- Witness for C3: the freshly initialized (disconnected) object rejects
all six operations with the not-connected error and no transport calls. -/
theorem not_connected_rejects_all_witness :
    set_motor_speed PowerupConnection.init 7 =
      (.error .notConnected, PowerupConnection.init, []) ∧
    set_rudder_angle PowerupConnection.init 7 =
      (.error .notConnected, PowerupConnection.init, []) ∧
    get_battery_level PowerupConnection.init [80] =
      (.error .notConnected, PowerupConnection.init, []) ∧
    get_charging_status PowerupConnection.init [1] =
      (.error .notConnected, PowerupConnection.init, []) ∧
    enable_battery_notifications PowerupConnection.init =
      (.error .notConnected, PowerupConnection.init, []) ∧
    test_all_characteristics PowerupConnection.init [] no_reads =
      (.error .notConnected, PowerupConnection.init, []) :=
  not_connected_rejects_all PowerupConnection.init 7 7 [80] [1] [] no_reads rfl

/-- Counterexample for C4 as stated: a device advertising the empty
string as its name is discovered while the target name is also the empty
string.  The advertised name equals the target name case-insensitively,
so the claim says the device is matched and connected to; but the scan
filter `d.name and d.name.lower() == target_name.lower()` treats the
empty advertised name as falsy, matches nothing, and `connect` returns
`CouldNotFind`. -/
theorem connect_match_counterexample :
    spec_match "" { name := some "", address := "00:00:00:00:00:00" } = true ∧
    (connect PowerupConnection.init
        [{ name := some "", address := "00:00:00:00:00:00" }] "" true).1 =
      ConnectOutcome.couldNotFind := by
  constructor
  · rfl
  · rfl

/-- Claim C4 (amended): `connect` matches discovered devices whose
advertised name is nonempty and equal to `target_name` case-insensitively
(the filter skips devices advertising no name or an empty name), taking
the first such match; when no device matches within the timeout it
returns the `CouldNotFind` failure without raising, issues only the scan
call, and the session remains disconnected. -/
theorem connect_match_amended (self : PowerupConnection)
    (devices1 devices2 : List BLEDevice) (t1 t2 : String) (open_ok : Bool)
    (h0 : self.connected = false)
    (h2 : find_device_by_filter devices2 t2 = none) :
    find_device_by_filter devices1 t1 = devices1.find? (amended_match t1) ∧
    connect self devices2 t2 open_ok =
      (.couldNotFind, { self with device := none }, [.find_device]) ∧
    ({ self with device := none } : PowerupConnection).connected = false := by
  refine ⟨rfl, ?_, h0⟩
  unfold connect
  rw [h2]

/-- Witness for C4 (amended): a scan yielding one device named
"TailorToys PowerUp" matched against the lowercase target, and an empty
scan leading to `CouldNotFind` on the initial (disconnected) state. -/
theorem connect_match_amended_witness :
    find_device_by_filter
        [{ name := some "TailorToys PowerUp", address := "11:22:33:44:55:66" }]
        "tailortoys powerup" =
      List.find? (amended_match "tailortoys powerup")
        [{ name := some "TailorToys PowerUp", address := "11:22:33:44:55:66" }] ∧
    connect PowerupConnection.init [] "TailorToys PowerUp" true =
      (.couldNotFind, { PowerupConnection.init with device := none },
       [.find_device]) ∧
    ({ PowerupConnection.init with device := none } :
        PowerupConnection).connected = false :=
  connect_match_amended PowerupConnection.init
    [{ name := some "TailorToys PowerUp", address := "11:22:33:44:55:66" }] []
    "tailortoys powerup" "TailorToys PowerUp" true rfl rfl

/-- Initial states satisfy the client invariant. -/
theorem clientInv_init : clientInv PowerupConnection.init := by
  intro h
  simp [PowerupConnection.init] at h

/-- `connect` preserves the client invariant: on the match path it stores
a client before setting `connected`. -/
theorem clientInv_connect (self : PowerupConnection)
    (devices : List BLEDevice) (target_name : String) (open_ok : Bool)
    (hinv : clientInv self) :
    clientInv (connect self devices target_name open_ok).2.1 := by
  unfold connect
  cases hfd : find_device_by_filter devices target_name with
  | none =>
      intro h
      simp at h
      exact hinv h
  | some d =>
      cases open_ok with
      | false =>
          intro h
          simp at h ⊢
      | true =>
          intro h
          simp

/-- `disconnect` preserves the client invariant: it never clears the
client and only ever lowers `connected`. -/
theorem clientInv_disconnect (self : PowerupConnection)
    (hinv : clientInv self) : clientInv (disconnect self).1 := by
  unfold disconnect
  by_cases hb : (self.client.isSome && self.connected) = true
  · rw [if_pos hb]
    intro h
    simp at h
  · rw [if_neg hb]
    exact hinv

/-- Claim C5: `disconnect` is a no-op on a disconnected session, and on
any reachable session (one satisfying the client invariant) it leaves the
state disconnected once it returns; hence a second `disconnect` in a row
is a no-op that keeps the state disconnected. -/
theorem disconnect_idempotent (s1 s2 : PowerupConnection)
    (hinv : clientInv s1) (h2 : s2.connected = false) :
    disconnect s2 = (s2, []) ∧
    (disconnect s1).1.connected = false ∧
    disconnect (disconnect s1).1 = ((disconnect s1).1, []) := by
  refine ⟨by simp [disconnect, h2], ?_, ?_⟩
  · cases hc : s1.connected with
    | false => simp [disconnect, hc]
    | true =>
        have hcl : s1.client.isSome = true := hinv hc
        simp [disconnect, hc, hcl]
  · cases hc : s1.connected with
    | false => simp [disconnect, hc]
    | true =>
        have hcl : s1.client.isSome = true := hinv hc
        simp [disconnect, hc, hcl]

/-- Witness for C5: the connected sample state is disconnected by the
first call, the second call is a no-op, and `disconnect` on the initial
disconnected state does nothing. -/
theorem disconnect_idempotent_witness :
    disconnect PowerupConnection.init = (PowerupConnection.init, []) ∧
    (disconnect conn_state).1.connected = false ∧
    disconnect (disconnect conn_state).1 = ((disconnect conn_state).1, []) :=
  disconnect_idempotent conn_state PowerupConnection.init (fun _ => rfl) rfl

/-- Each payload whose delivery reaches the callback contributes exactly
one invocation carrying its first byte, in delivery order. -/
theorem deliver_all_eq_map (payloads : List (List Nat))
    (hne : ∀ p ∈ payloads, p ≠ []) :
    deliver_all payloads = payloads.map List.headI := by
  induction payloads with
  | nil => rfl
  | cons p ps ih =>
      have hp : p ≠ [] := hne p (by simp)
      have hrest := ih fun q hq => hne q (by simp [hq])
      cases p with
      | nil => exact absurd rfl hp
      | cons b rest =>
          simp only [deliver_all, List.flatMap_cons, List.map_cons] at hrest ⊢
          rw [hrest]
          rfl

/-- Claim C6: while connected, `enable_battery_notifications` registers
exactly one notification subscription on the battery level characteristic
and invokes no handler by itself (an empty delivery sequence produces no
calls); each subsequently delivered nonempty payload causes exactly one
handler call with the unsigned value of its first byte, in delivery
order. -/
theorem battery_notifications_correct (self : PowerupConnection)
    (payloads : List (List Nat)) (hc : self.connected = true)
    (hne : ∀ p ∈ payloads, p ≠ []) :
    enable_battery_notifications self =
      (.ok (), self, [.start_notify BATTERY_LEVEL_UUID]) ∧
    deliver_all payloads = payloads.map List.headI ∧
    deliver_all [] = [] :=
  ⟨by simp [enable_battery_notifications, hc],
   deliver_all_eq_map payloads hne, rfl⟩

/-- Witness for C6: registration on the connected sample state issues one
subscription, and delivering the single payload [0x32] calls the handler
exactly once with 50. -/
theorem battery_notifications_correct_witness :
    enable_battery_notifications conn_state =
      (.ok (), conn_state, [.start_notify BATTERY_LEVEL_UUID]) ∧
    deliver_all [[50]] = [50] ∧
    deliver_all [] = [] := by
  have h := battery_notifications_correct conn_state [[50]] rfl (by decide)
  exact ⟨h.1, h.2.1.trans (by decide), h.2.2⟩

/-- Claim C7: while connected, `get_battery_level` issues exactly one
read of the battery level characteristic and returns the unsigned value
of the first byte unmodified, for every byte value 0-255, with no
re-validation against the 0-100 percentage range. -/
theorem get_battery_level_correct (self : PowerupConnection) (b : Nat)
    (rest : List Nat) (hc : self.connected = true) (_hb : b ≤ 255) :
    get_battery_level self (b :: rest) =
      (.ok b, self, [.read_gatt_char BATTERY_LEVEL_UUID]) := by
  simp [get_battery_level, hc]

/-- Witness for C7: at the connected sample state a read yielding the
byte 200 (well above the 0-100 percentage range) is returned as 200 after
exactly one read. -/
theorem get_battery_level_correct_witness :
    get_battery_level conn_state [200] =
      (.ok 200, conn_state, [.read_gatt_char BATTERY_LEVEL_UUID]) :=
  get_battery_level_correct conn_state 200 [] rfl (by decide)

/-- A sample device service list for diagnostics: one service with two
readable characteristics. -/
def svc_sample : List BLEService :=
  [{ uuid := POWERUP_SERVICE_UUID,
     characteristics :=
       [{ uuid := "u1", properties := ["read"] },
        { uuid := "u2", properties := ["read", "notify"] }] }]

/-- A read-result function whose read of "u1" raises while every other
read succeeds, modelling one bad endpoint among several. -/
def res_fail : String → Except String (List Nat) :=
  fun u => if u == "u1" then Except.error "read failed" else Except.ok [1]

/-- Claim C8: while connected, `test_all_characteristics` attempts a read
on every enumerated characteristic advertising the "read" property; the
sequence of attempted reads is the full enumeration and does not depend
on which reads fail, so a failing read never aborts the scan of the
remaining characteristics, and every readable characteristic gets an
entry in the report. -/
theorem test_all_characteristics_isolates_failures
    (self : PowerupConnection) (services : List BLEService)
    (res1 res2 : String → Except String (List Nat))
    (s : BLEService) (c : BLECharacteristic)
    (hc : self.connected = true) (hs : s ∈ services)
    (hcs : c ∈ s.characteristics)
    (hr : c.properties.contains "read" = true) :
    (test_all_characteristics self services res1).2.2 =
      read_attempts services ∧
    (test_all_characteristics self services res1).2.2 =
      (test_all_characteristics self services res2).2.2 ∧
    TransportCall.read_gatt_char c.uuid ∈
      (test_all_characteristics self services res1).2.2 ∧
    (test_all_characteristics self services res1).1 =
      .ok (read_report services res1) ∧
    (c.uuid, res1 c.uuid) ∈ read_report services res1 := by
  have ht : ∀ r, (test_all_characteristics self services r).2.2 =
      read_attempts services := by
    intro r
    simp [test_all_characteristics, hc]
  have hr2 : "read" ∈ c.properties := by simpa using hr
  refine ⟨ht res1, (ht res1).trans (ht res2).symm, ?_,
    by simp [test_all_characteristics, hc], ?_⟩
  · rw [ht res1]
    unfold read_attempts
    refine List.mem_flatMap.mpr ⟨s, hs, ?_⟩
    refine List.mem_flatMap.mpr ⟨c, hcs, ?_⟩
    simp [hr2]
  · unfold read_report
    refine List.mem_flatMap.mpr ⟨s, hs, ?_⟩
    refine List.mem_flatMap.mpr ⟨c, hcs, ?_⟩
    simp [hr2]

/-- Witness for C8: on the sample service list, with the read of "u1"
raising, the later characteristic "u2" is still read and reported, and
the attempted reads are the same as when every read succeeds. -/
theorem test_all_characteristics_isolates_failures_witness :
    (test_all_characteristics conn_state svc_sample res_fail).2.2 =
      read_attempts svc_sample ∧
    (test_all_characteristics conn_state svc_sample res_fail).2.2 =
      (test_all_characteristics conn_state svc_sample no_reads).2.2 ∧
    TransportCall.read_gatt_char "u2" ∈
      (test_all_characteristics conn_state svc_sample res_fail).2.2 ∧
    (test_all_characteristics conn_state svc_sample res_fail).1 =
      .ok (read_report svc_sample res_fail) ∧
    ("u2", res_fail "u2") ∈ read_report svc_sample res_fail :=
  test_all_characteristics_isolates_failures conn_state svc_sample
    res_fail no_reads
    { uuid := POWERUP_SERVICE_UUID,
      characteristics :=
        [{ uuid := "u1", properties := ["read"] },
         { uuid := "u2", properties := ["read", "notify"] }] }
    { uuid := "u2", properties := ["read", "notify"] }
    rfl (by decide) (by decide) (by decide)

/-- Claim C9: every precondition failure (the not-connected rejection of
any of the six operations, and the range rejections of `set_motor_speed`
and `set_rudder_angle`) leaves the whole session state - connected flag,
stored client, stored device, stored callback - exactly as it was before
the call. -/
theorem precondition_failure_preserves_state (s1 s2 : PowerupConnection)
    (speed1 angle1 speed2 angle2 : Int) (data1 data2 : List Nat)
    (services : List BLEService)
    (res : String → Except String (List Nat))
    (h1 : s1.connected = false) (h2 : s2.connected = true)
    (hs : ¬ (0 ≤ speed2 ∧ speed2 ≤ 254))
    (ha : ¬ (-128 ≤ angle2 ∧ angle2 ≤ 127)) :
    (set_motor_speed s1 speed1).2.1 = s1 ∧
    (set_rudder_angle s1 angle1).2.1 = s1 ∧
    (get_battery_level s1 data1).2.1 = s1 ∧
    (get_charging_status s1 data2).2.1 = s1 ∧
    (enable_battery_notifications s1).2.1 = s1 ∧
    (test_all_characteristics s1 services res).2.1 = s1 ∧
    (set_motor_speed s2 speed2).2.1 = s2 ∧
    (set_rudder_angle s2 angle2).2.1 = s2 := by
  refine ⟨?_, ?_, ?_, ?_, ?_, ?_, ?_, ?_⟩ <;>
    simp [set_motor_speed, set_rudder_angle, get_battery_level,
      get_charging_status, enable_battery_notifications,
      test_all_characteristics, h1, h2, hs, ha]

/-- Witness for C9: the initial disconnected state is preserved by all
six rejected operations, and the connected sample state is preserved by
the out-of-range rejections (speed 300, angle 200). -/
theorem precondition_failure_preserves_state_witness :
    (set_motor_speed PowerupConnection.init 7).2.1 =
      PowerupConnection.init ∧
    (set_rudder_angle PowerupConnection.init 7).2.1 =
      PowerupConnection.init ∧
    (get_battery_level PowerupConnection.init [80]).2.1 =
      PowerupConnection.init ∧
    (get_charging_status PowerupConnection.init [1]).2.1 =
      PowerupConnection.init ∧
    (enable_battery_notifications PowerupConnection.init).2.1 =
      PowerupConnection.init ∧
    (test_all_characteristics PowerupConnection.init svc_sample
        no_reads).2.1 = PowerupConnection.init ∧
    (set_motor_speed conn_state 300).2.1 = conn_state ∧
    (set_rudder_angle conn_state 200).2.1 = conn_state :=
  precondition_failure_preserves_state PowerupConnection.init conn_state
    7 7 300 200 [80] [1] svc_sample no_reads rfl rfl (by decide) (by decide)

/-- Claim C10: `get_battery_level`, `get_charging_status` and the
notification handler all inspect only index 0 of the delivered payload:
on a nonempty payload the outcome depends only on the first byte, and on
an empty payload each fails with `IndexError` instead of returning a
value. -/
theorem first_byte_access_safe (self : PowerupConnection) (b : Nat)
    (rest1 rest2 : List Nat) (hc : self.connected = true) :
    (get_battery_level self (b :: rest1)).1 = .ok b ∧
    get_battery_level self (b :: rest1) =
      get_battery_level self (b :: rest2) ∧
    (get_battery_level self []).1 = .error .indexError ∧
    (get_charging_status self (b :: rest1)).1 = .ok (b != 0) ∧
    get_charging_status self (b :: rest1) =
      get_charging_status self (b :: rest2) ∧
    (get_charging_status self []).1 = .error .indexError ∧
    notification_handler (b :: rest1) = .ok b ∧
    notification_handler (b :: rest1) = notification_handler (b :: rest2) ∧
    notification_handler [] = .error .indexError := by
  refine ⟨?_, ?_, ?_, ?_, ?_, ?_, rfl, rfl, rfl⟩ <;>
    simp [get_battery_level, get_charging_status, hc]

/-- Witness for C10: at the connected sample state, payloads starting
with the byte 5 give battery level 5 and charging status true whatever
trails the first byte, and the empty payload fails with `IndexError` in
all three readers. -/
theorem first_byte_access_safe_witness :
    (get_battery_level conn_state [5, 9]).1 = .ok 5 ∧
    get_battery_level conn_state [5, 9] = get_battery_level conn_state [5] ∧
    (get_battery_level conn_state []).1 = .error .indexError ∧
    (get_charging_status conn_state [5, 9]).1 = .ok true ∧
    get_charging_status conn_state [5, 9] =
      get_charging_status conn_state [5] ∧
    (get_charging_status conn_state []).1 = .error .indexError ∧
    notification_handler [5, 9] = .ok 5 ∧
    notification_handler [5, 9] = notification_handler [5] ∧
    notification_handler [] = .error .indexError :=
  first_byte_access_safe conn_state 5 [9] [] rfl

end Pypowerup
